import Mathlib

/-!
Shallow embedding of the EmotionRecognitionSystem analytics core
(backend/app/routes/ml.py, backend/app/routes/analytics.py,
backend/app/utils/validators.py).

Python float arithmetic is modelled exactly over `ℚ`; Python dicts of
emotion confidences are modelled as association lists `List (String × ℚ)`
(preserving iteration order, which Python's `max` tie-breaking depends on).
-/

namespace ERS

/-- A single detection's emotion-confidence mapping, as iterated by the
Python code (`record.items()`). -/
abbrev Emotions := List (String × ℚ)

/-- A stored emotion record as seen by `analytics.py` (timestamp plus the
`emotions_json` mapping).  Timestamps are abstracted to `Nat`; records are
supplied in query order (timestamp ascending). -/
structure ERecord where
  timestamp : Nat
  emotions : Emotions
deriving DecidableEq, Repr

/-- `EmotionAnalyzer.emotion_weights` from ml.py (fixed table). -/
def emotion_weights : List (String × ℚ) :=
  [("happy", 1), ("sad", -4/5), ("angry", -1), ("surprised", 3/10),
   ("fearful", -7/10), ("disgusted", -3/5), ("neutral", 0)]

/-- `self.stability_threshold = 0.3` from ml.py. -/
def stability_threshold : ℚ := 3/10

/-- Python `list[-n:]`: the last `n` elements (the whole list when shorter). -/
def lastN (n : Nat) (l : List α) : List α := l.drop (l.length - n)

/-- Python `record.get(emotion, 0)`. -/
def getOr0 (r : Emotions) (e : String) : ℚ := (r.lookup e).getD 0

/-- The per-record loop body of `calculate_wellness_score`: the pairs
`(value*weight, value)` for the record entries whose emotion is in
`emotion_weights`. -/
def weightedPairs (record : Emotions) : List (ℚ × ℚ) :=
  record.filterMap (fun p => (emotion_weights.lookup p.1).map (fun w => (p.2 * w, p.2)))

/-- `record_score` accumulated for one record in `calculate_wellness_score`. -/
def record_score (record : Emotions) : ℚ := ((weightedPairs record).map Prod.fst).sum

/-- `total_intensity` accumulated for one record in `calculate_wellness_score`. -/
def total_intensity (record : Emotions) : ℚ := ((weightedPairs record).map Prod.snd).sum

/-- The optional per-record sample appended to `scores` in
`calculate_wellness_score`: present iff `total_intensity > 0`, clamped to
`[0, 1]`. -/
def recordSample (record : Emotions) : Option ℚ :=
  if 0 < total_intensity record then
    some (max 0 (min 1 ((record_score record + total_intensity record)
      / (2 * total_intensity record))))
  else none

/-- `EmotionAnalyzer.calculate_wellness_score` from ml.py: 0.5 on empty
history, else the mean of the usable samples over the last 10 records
(0.5 again when no sample is usable). -/
def calculate_wellness_score (emotions_history : List Emotions) : ℚ :=
  if emotions_history = [] then 1/2
  else
    let scores := (lastN 10 emotions_history).filterMap recordSample
    if scores = [] then 1/2 else scores.sum / scores.length

/-- Population variance (`np.var`): mean of squared deviations from the mean. -/
def npVar (vs : List ℚ) : ℚ :=
  if vs = [] then 0
  else
    let m := vs.sum / vs.length
    (vs.map (fun v => (v - m) ^ 2)).sum / vs.length

/-- `EmotionAnalyzer.calculate_stability_score` from ml.py: 0.7 when fewer
than 3 records exist; otherwise the per-emotion variances over the last 5
records (missing values read as 0 via `record.get(emotion, 0)`) are
averaged over the seven weighted emotions and mapped through
`min(1, max(0.1, 1 - avg/0.3))`.  (The source's `len(values) > 1` guard
always holds on this branch since the window has at least 3 records.) -/
def calculate_stability_score (emotions_history : List Emotions) : ℚ :=
  if emotions_history.length < 3 then 7/10
  else
    let recent_records := lastN 5 emotions_history
    let variances :=
      emotion_weights.map (fun p => npVar (recent_records.map (fun r => getOr0 r p.1)))
    let avg_variance := variances.sum / variances.length
    min 1 (max (1/10) (1 - avg_variance / stability_threshold))

/-- One recommendation object produced by
`generate_intelligent_recommendations` (ml.py). -/
structure Rec where
  ty : String
  title : String
  description : String
  action : String
  duration : String
  icon : String
deriving DecidableEq, Repr

/-- The two items of the `happy` branch (confidence > 0.7). -/
def happy_recs : List Rec :=
  [⟨"maintain", "Keep the Positive Energy",
    "Share your joy with others through meaningful connections",
    "Call someone you care about", "10-15 min", "📞"⟩,
   ⟨"creative", "Channel Your Energy",
    "Use this positive state for productive activities",
    "Work on a personal project or hobby", "30+ min", "🎨"⟩]

/-- The three items of the `sad` branch (confidence > 0.6). -/
def sad_recs : List Rec :=
  [⟨"support", "Gentle Self-Care", "Be kind to yourself during this time",
    "Take a warm shower or practice deep breathing", "15-20 min", "🛁"⟩,
   ⟨"connection", "Reach Out", "Human connection can provide comfort",
    "Text a trusted friend or family member", "5-10 min", "💬"⟩,
   ⟨"mindfulness", "Mindful Moment", "Ground yourself in the present",
    "Try a 5-minute guided meditation", "5 min", "🧘"⟩]

/-- The three items of the `angry` branch. -/
def angry_recs : List Rec :=
  [⟨"release", "Physical Release", "Channel anger into movement",
    "Take a brisk walk or do some stretches", "10-20 min", "🚶"⟩,
   ⟨"cooling", "Cool Down Period", "Give yourself time to process",
    "Step away and take 10 deep breaths", "2-5 min", "❄️"⟩,
   ⟨"expression", "Express Safely", "Write down your thoughts",
    "Journal about what triggered the anger", "10-15 min", "📝"⟩]

/-- The two items of the `surprised` branch. -/
def surprised_recs : List Rec :=
  [⟨"process", "Process the Moment", "Take time to understand what happened",
    "Reflect on the situation calmly", "5-10 min", "🤔"⟩,
   ⟨"adaptation", "Adapt and Learn", "Use surprise as a learning opportunity",
    "Consider what this teaches you", "10 min", "💡"⟩]

/-- The three items of the `fearful` branch. -/
def fearful_recs : List Rec :=
  [⟨"grounding", "Grounding Exercise", "Focus on your immediate environment",
    "Name 5 things you can see, 4 you can touch, 3 you can hear", "3-5 min", "🌱"⟩,
   ⟨"safety", "Create Safety", "Move to a comfortable, safe space",
    "Go somewhere you feel secure", "5 min", "🏠"⟩,
   ⟨"breathing", "Calm Breathing", "Regulate your nervous system",
    "Practice 4-7-8 breathing technique", "5-10 min", "🫁"⟩]

/-- The two items of the fallback branch (neutral, disgusted, or mixed). -/
def default_recs : List Rec :=
  [⟨"awareness", "Emotional Check-In", "Tune into how you\x27re really feeling",
    "Spend a moment identifying your emotions", "3-5 min", "🎯"⟩,
   ⟨"engagement", "Gentle Activity", "Engage in something mildly pleasant",
    "Listen to music or look at nature", "10-15 min", "🎵"⟩]

/-- The stability-focused item inserted when `stability_score < 0.4`. -/
def stability_rec : Rec :=
  ⟨"stability", "Build Routine", "Emotions seem fluctuating - establish grounding",
   "Create a simple 5-minute daily routine", "5 min", "⚖️"⟩

/-- The wellness-focused item inserted when `wellness_score < 0.3`. -/
def wellness_rec : Rec :=
  ⟨"wellness", "Basic Self-Care", "Focus on fundamental needs first",
   "Ensure you\x27re hydrated and have eaten", "5 min", "💚"⟩

/-- The if/elif ladder of `generate_intelligent_recommendations` selecting
the base list by dominant emotion (with the `happy` > 0.7 and `sad` > 0.6
confidence gates; an unmet gate leaves the initial empty list). -/
def base_recommendations (dominant_emotion : String) (confidence : ℚ) : List Rec :=
  if dominant_emotion = "happy" then
    if confidence > 7/10 then happy_recs else []
  else if dominant_emotion = "sad" then
    if confidence > 6/10 then sad_recs else []
  else if dominant_emotion = "angry" then angry_recs
  else if dominant_emotion = "surprised" then surprised_recs
  else if dominant_emotion = "fearful" then fearful_recs
  else default_recs

/-- `generate_intelligent_recommendations` from ml.py: base list, then
`insert(0, stability_rec)` when stability < 0.4, then
`insert(0, wellness_rec)` when wellness < 0.3, then `[:4]`. -/
def generate_intelligent_recommendations (dominant_emotion : String)
    (confidence wellness_score stability_score : ℚ) : List Rec :=
  let recs := base_recommendations dominant_emotion confidence
  let recs := if stability_score < 4/10 then stability_rec :: recs else recs
  let recs := if wellness_score < 3/10 then wellness_rec :: recs else recs
  recs.take 4

/-- The ordering policy as the spec states it: final list =
`take 4 ([wellness_item?] ++ [stability_item?] ++ base)`. -/
def recommendations_spec (dominant_emotion : String)
    (confidence wellness_score stability_score : ℚ) : List Rec :=
  ((if wellness_score < 3/10 then [wellness_rec] else []) ++
   (if stability_score < 4/10 then [stability_rec] else []) ++
   base_recommendations dominant_emotion confidence).take 4

/-- One entry of the `peaks` list built by `get_emotion_peaks`
(analytics.py); rounding of the returned floats is a presentation concern
and is not modelled. -/
structure PeakEntry where
  timestamp : Nat
  emotion : String
  value : ℚ
  baseline : ℚ
  intensity : ℚ
deriving DecidableEq, Repr

/-- One entry of the `anomalies` list built by `get_emotion_peaks`
(its `type` field is the constant string `high_intensity`). -/
structure AnomalyEntry where
  timestamp : Nat
  emotion : String
  value : ℚ
deriving DecidableEq, Repr

/-- All occurrences of emotion `e` across the records
(`emotion_baselines[e]` in `get_emotion_peaks`). -/
def baselineValues (records : List ERecord) (e : String) : List ℚ :=
  records.flatMap (fun r =>
    r.emotions.filterMap (fun p => if p.1 = e then some p.2 else none))

/-- `baselines[e] = sum(values) / len(values)` in `get_emotion_peaks`;
total with value 0 for an emotion never observed (that case is unreachable
in the source, which only indexes baselines of observed emotions). -/
def baselineOf (records : List ERecord) (e : String) : ℚ :=
  let vs := baselineValues records e
  if vs = [] then 0 else vs.sum / vs.length

/-- The peak entry `get_emotion_peaks` appends for a pair `(e, v)` of the
record at timestamp `t`: `intensity = v / baseline` when the baseline is
positive, else 1. -/
def mkPeak (records : List ERecord) (t : Nat) (e : String) (v : ℚ) : PeakEntry :=
  let b := baselineOf records e
  ⟨t, e, v, b, if 0 < b then v / b else 1⟩

/-- `threshold_multiplier = 1.5` in `get_emotion_peaks`. -/
def threshold_multiplier : ℚ := 3/2

/-- The `peaks` list of `get_emotion_peaks` before sorting/truncation:
entries for every `(record, emotion, value)` with
`value > baseline * 1.5 and value > 0.7`, in source order. -/
def peaksAll (records : List ERecord) : List PeakEntry :=
  records.flatMap (fun r =>
    r.emotions.filterMap (fun p =>
      if baselineOf records p.1 * threshold_multiplier < p.2 ∧ 7/10 < p.2 then
        some (mkPeak records r.timestamp p.1 p.2)
      else none))

/-- The `anomalies` list of `get_emotion_peaks` before truncation:
entries for every `(record, emotion, value)` with `value > 0.9`,
in source order. -/
def anomaliesAll (records : List ERecord) : List AnomalyEntry :=
  records.flatMap (fun r =>
    r.emotions.filterMap (fun p =>
      if 9/10 < p.2 then some (⟨r.timestamp, p.1, p.2⟩ : AnomalyEntry) else none))

/-- `get_emotion_peaks` from analytics.py: empty output on no records;
otherwise peaks sorted by intensity descending (Python's stable sort with
`reverse=True`) truncated to 20, and the last 10 anomalies in source
order. -/
def get_emotion_peaks (records : List ERecord) :
    List PeakEntry × List AnomalyEntry :=
  if records = [] then ([], [])
  else
    (((peaksAll records).mergeSort (fun a b => decide (b.intensity ≤ a.intensity))).take 20,
     lastN 10 (anomaliesAll records))

/-- The `stress_emotions` set of `get_pattern_analysis` (analytics.py). -/
def stress_emotions : List String := ["angry", "fearful", "disgusted", "sad"]

/-- The `positive_emotions` set of `get_pattern_analysis`. -/
def positive_emotions : List String := ["happy"]

/-- `max(emotions.items(), key=lambda x: x[1]) if emotions else ("neutral", 0)`
in `get_pattern_analysis`: Python's `max` keeps the first of equal maxima. -/
def dominantOf (emotions : Emotions) : String × ℚ :=
  match emotions with
  | [] => ("neutral", 0)
  | p :: rest => rest.foldl (fun best q => if best.2 < q.2 then q else best) p

/-- Whether a record falls in the `high` stress bucket. -/
def inHighBucket (r : ERecord) : Bool :=
  stress_emotions.contains (dominantOf r.emotions).1

/-- Whether a record falls in the `low` stress bucket (the elif branch:
not stress, and positive). -/
def inLowBucket (r : ERecord) : Bool :=
  !inHighBucket r && positive_emotions.contains (dominantOf r.emotions).1

/-- Whether a record falls in the `medium` stress bucket (the else branch). -/
def inMediumBucket (r : ERecord) : Bool :=
  !inHighBucket r && !positive_emotions.contains (dominantOf r.emotions).1

/-- The `stress_levels` triple `(low, medium, high)` computed by
`get_pattern_analysis`: bucket percentages of the dominant-emotion
classification, or the degenerate `(33.3, 33.3, 33.3)` split when there
are no records. -/
def stress_levels (records : List ERecord) : ℚ × ℚ × ℚ :=
  if records = [] then (333/10, 333/10, 333/10)
  else
    let total : ℚ := records.length
    ((records.countP inLowBucket : ℚ) / total * 100,
     (records.countP inMediumBucket : ℚ) / total * 100,
     (records.countP inHighBucket : ℚ) / total * 100)

/-- The inline trend computation of `predict_mood` (ml.py): with at least
5 records, compare wellness over `history[-3:]` against wellness over
`history[-6:-3]`; otherwise `stable`. -/
def predict_trend (emotions_history : List Emotions) : String :=
  if 5 ≤ emotions_history.length then
    let n := emotions_history.length
    let recent_wellness := calculate_wellness_score (emotions_history.drop (n - 3))
    let earlier_wellness :=
      calculate_wellness_score ((emotions_history.take (n - 3)).drop (n - 6))
    if recent_wellness > earlier_wellness + 1/10 then "improving"
    else if recent_wellness < earlier_wellness - 1/10 then "declining"
    else "stable"
  else "stable"

/-- A candidate input to `validate_emotion_data` (validators.py): either a
dict whose values may or may not be numeric, or a non-dict value. -/
inductive EmotionData where
  | dict (entries : List (String × Option ℚ))
  | notDict
deriving DecidableEq, Repr

/-- `required_emotions` in `validate_emotion_data`. -/
def required_emotions : List String :=
  ["happy", "sad", "angry", "fearful", "disgusted", "surprised", "neutral"]

/-- `validate_emotion_data` from validators.py: the input must be a dict,
every required emotion must be present with a numeric value, and each such
value must lie in `[0, 1]`.  A non-numeric value is `none`. -/
def validate_emotion_data (emotions : EmotionData) : Bool :=
  match emotions with
  | .notDict => false
  | .dict entries =>
    required_emotions.all (fun e =>
      match entries.lookup e with
      | some (some v) => decide (0 ≤ v ∧ v ≤ 1)
      | some none => false
      | none => false)

/-- C1: the recommendation engine builds the final list by prepending a
stability item when stability < 0.4 and then a wellness item when
wellness < 0.3 onto the emotion-keyed base list, truncating to 4, so the
final list equals take 4 ([wellness?] ++ [stability?] ++ base); for
wellness=0.2, stability=0.2, dominant="sad", confidence=0.8 the result is
the wellness item, the stability item, then the first two sad base items. -/
theorem generate_recommendations_prepend_truncate :
    (∀ (d : String) (c w s : ℚ),
      generate_intelligent_recommendations d c w s = recommendations_spec d c w s) ∧
    generate_intelligent_recommendations "sad" (4/5) (1/5) (1/5) =
      wellness_rec :: stability_rec :: sad_recs.take 2 := by
  constructor
  · intro d c w s
    simp only [generate_intelligent_recommendations, recommendations_spec]
    split_ifs <;> simp
  · norm_num [generate_intelligent_recommendations, base_recommendations, sad_recs]
    rw [if_neg (by decide)]
    rfl

/-- C8: with dominant emotion `happy` and confidence ≤ 0.7 the base rule
produces nothing, so with wellness ≥ 0.3 and stability ≥ 0.4 the engine
returns the empty list; with confidence > 0.7 the happy branch produces
its non-empty two-item base list. -/
theorem happy_confidence_gate :
    (∀ c w s : ℚ, c ≤ 7/10 → 3/10 ≤ w → 4/10 ≤ s →
      generate_intelligent_recommendations "happy" c w s = []) ∧
    (∀ c : ℚ, 7/10 < c →
      base_recommendations "happy" c = happy_recs ∧ happy_recs ≠ []) := by
  constructor
  · intro c w s hc hw hs
    have hbase : base_recommendations "happy" c = [] := by
      simp [base_recommendations, not_lt.mpr hc]
    simp [generate_intelligent_recommendations, hbase, not_lt.mpr hw, not_lt.mpr hs]
  · intro c hc
    refine ⟨?_, by simp [happy_recs]⟩
    simp [base_recommendations, hc]

/-- Witness for C8 at confidence 0.5 (gated branch) and 0.8 (open branch). -/
theorem happy_confidence_gate_example :
    generate_intelligent_recommendations "happy" (1/2) (1/2) (1/2) = [] ∧
    base_recommendations "happy" (4/5) = happy_recs ∧ happy_recs ≠ [] :=
  ⟨happy_confidence_gate.1 (1/2) (1/2) (1/2) (by norm_num) (by norm_num) (by norm_num),
   happy_confidence_gate.2 (4/5) (by norm_num)⟩

/-- C10: the `sad` base rule is gated by confidence > 0.6: with dominant
emotion `sad`, confidence ≤ 0.6, wellness ≥ 0.3 and stability ≥ 0.4 the
engine returns the empty list, while confidence > 0.6 yields the
three-item sad base list. -/
theorem sad_confidence_gate :
    (∀ c w s : ℚ, c ≤ 6/10 → 3/10 ≤ w → 4/10 ≤ s →
      generate_intelligent_recommendations "sad" c w s = []) ∧
    (∀ c : ℚ, 6/10 < c →
      base_recommendations "sad" c = sad_recs ∧ sad_recs.length = 3) := by
  constructor
  · intro c w s hc hw hs
    have hbase : base_recommendations "sad" c = [] := by
      simp [base_recommendations, not_lt.mpr hc]
    simp [generate_intelligent_recommendations, hbase, not_lt.mpr hw, not_lt.mpr hs]
  · intro c hc
    refine ⟨?_, rfl⟩
    simp [base_recommendations, hc]

/-- Witness for C10 at confidence 0.5 (gated branch) and 0.8 (open branch). -/
theorem sad_confidence_gate_example :
    generate_intelligent_recommendations "sad" (1/2) (1/2) (1/2) = [] ∧
    base_recommendations "sad" (4/5) = sad_recs ∧ sad_recs.length = 3 :=
  ⟨sad_confidence_gate.1 (1/2) (1/2) (1/2) (by norm_num) (by norm_num) (by norm_num),
   sad_confidence_gate.2 (4/5) (by norm_num)⟩

/-- Clamp to `[0, 1]` as the spec writes it. -/
def clamp01 (x : ℚ) : ℚ := max 0 (min 1 x)

/-- The wellness score as the spec states it: the arithmetic mean, over
the most recent 10 records whose total emotion intensity is strictly
positive, of `clamp((weighted_sum + total_intensity) / (2 * total_intensity), 0, 1)`,
defaulting to 0.5 when no record yields a usable sample. -/
def wellness_spec (emotions_history : List Emotions) : ℚ :=
  let usable := (lastN 10 emotions_history).filter (fun r => decide (0 < total_intensity r))
  if usable = [] then 1/2
  else
    (usable.map (fun r =>
      clamp01 ((record_score r + total_intensity r) / (2 * total_intensity r)))).sum
      / usable.length

/-- `filterMap` of an if-some-else-none function is map-after-filter. -/
theorem filterMap_ite_eq_map_filter {α β : Type} (p : α → Prop) [DecidablePred p]
    (f : α → β) (l : List α) :
    l.filterMap (fun a => if p a then some (f a) else none) =
      (l.filter (fun a => decide (p a))).map f := by
  induction l with
  | nil => rfl
  | cons a l ih =>
    by_cases h : p a <;> simp [List.filterMap_cons, List.filter_cons, h, ih]

/-- C2: the wellness score equals the spec's mean-of-clamped-samples
formula over the most recent 10 records with positive total intensity
(0.5 when no usable sample exists), and a single record `happy = 1.0`
yields wellness 1. -/
theorem wellness_score_matches_spec :
    (∀ emotions_history : List Emotions,
      calculate_wellness_score emotions_history = wellness_spec emotions_history) ∧
    calculate_wellness_score [[("happy", 1)]] = 1 := by
  constructor
  · intro hist
    simp only [calculate_wellness_score, wellness_spec]
    by_cases h : hist = []
    · simp [h, lastN]
    · rw [if_neg h]
      have hrw : (lastN 10 hist).filterMap recordSample =
          ((lastN 10 hist).filter (fun r => decide (0 < total_intensity r))).map
            (fun r => clamp01 ((record_score r + total_intensity r) / (2 * total_intensity r))) := by
        have := filterMap_ite_eq_map_filter (fun r : Emotions => 0 < total_intensity r)
          (fun r => clamp01 ((record_score r + total_intensity r) / (2 * total_intensity r)))
          (lastN 10 hist)
        simpa [recordSample, clamp01] using this
      rw [hrw]
      simp [List.map_eq_nil_iff]
  · norm_num [calculate_wellness_score, lastN, recordSample, total_intensity, record_score,
      weightedPairs, emotion_weights, List.filterMap_cons, List.lookup]

/-- The stability score as the spec states it:
`clamp(max(0.1, 1 - avg_variance / 0.3), 0, 1)` over the averaged
per-emotion variances of the last 5 records (0.7 for histories shorter
than 3), averaging over the seven canonical emotions with missing values
read as 0. -/
def stability_spec (emotions_history : List Emotions) : ℚ :=
  if emotions_history.length < 3 then 7/10
  else
    let recent := lastN 5 emotions_history
    let avg_variance :=
      (emotion_weights.map (fun p => npVar (recent.map (fun r => getOr0 r p.1)))).sum / 7
    clamp01 (max (1/10) (1 - avg_variance / (3/10)))

/-- C3: the stability score is 0.7 for histories with fewer than 3
records, and otherwise equals the spec's clamped formula over the
averaged per-emotion variances of the last 5 records. -/
theorem stability_score_matches_spec :
    ∀ emotions_history : List Emotions,
      calculate_stability_score emotions_history = stability_spec emotions_history := by
  intro hist
  simp only [calculate_stability_score, stability_spec, stability_threshold]
  by_cases h : hist.length < 3
  · simp [h]
  · rw [if_neg h, if_neg h]
    have hlen : (emotion_weights.map
        (fun p => npVar ((lastN 5 hist).map (fun r => getOr0 r p.1)))).length = 7 := by
      simp [emotion_weights]
    rw [hlen]
    generalize (emotion_weights.map
        (fun p => npVar ((lastN 5 hist).map (fun r => getOr0 r p.1)))).sum = S
    have hy : (1 : ℚ)/10 ≤ max (1/10) (1 - S / 7 / (3/10)) := le_max_left _ _
    have h0 : (0 : ℚ) ≤ min 1 (max (1/10) (1 - S / 7 / (3/10))) :=
      le_min (by norm_num) (le_trans (by norm_num) hy)
    simp only [clamp01]
    rw [max_eq_right h0]
    norm_num

/-- The trend classification as the spec states it: `stable` for fewer
than 5 records; otherwise compare the wellness of the last 3 records with
the wellness of the records at positions `[-6:-3]`, labelling `improving`
when the difference exceeds 0.1 and `declining` when it is below −0.1. -/
def trend_spec (emotions_history : List Emotions) : String :=
  if emotions_history.length < 5 then "stable"
  else
    let n := emotions_history.length
    let recent_wellness := calculate_wellness_score (lastN 3 emotions_history)
    let earlier_wellness :=
      calculate_wellness_score ((emotions_history.take (n - 3)).drop (n - 6))
    if recent_wellness - earlier_wellness > 1/10 then "improving"
    else if recent_wellness - earlier_wellness < -(1/10) then "declining"
    else "stable"

/-- C6: the trend is `stable` below 5 records, and otherwise is decided
by comparing recent wellness (last 3 records) against earlier wellness
(positions `[-6:-3]`) with the ±0.1 thresholds. -/
theorem trend_matches_spec :
    ∀ emotions_history : List Emotions,
      predict_trend emotions_history = trend_spec emotions_history := by
  intro hist
  simp only [predict_trend, trend_spec, lastN]
  by_cases h : hist.length < 5
  · rw [if_neg (by omega), if_pos h]
  · rw [if_pos (by omega), if_neg h]
    refine if_congr ?_ rfl (if_congr ?_ rfl rfl)
    · constructor <;> intro <;> linarith
    · constructor <;> intro <;> linarith

/-- C4: a `(record, emotion, value)` pair is flagged as a peak iff
`value > baseline * 1.5` and `value > 0.7`, with intensity
`value / baseline` for a positive baseline and 1 otherwise, and is
flagged as an anomaly iff `value > 0.9`, independently of the baseline. -/
theorem peak_anomaly_flag_iff :
    ∀ (records : List ERecord) (r : ERecord) (e : String) (v : ℚ),
      r ∈ records → (e, v) ∈ r.emotions →
      ((mkPeak records r.timestamp e v ∈ peaksAll records ↔
          baselineOf records e * threshold_multiplier < v ∧ 7/10 < v) ∧
       ((⟨r.timestamp, e, v⟩ : AnomalyEntry) ∈ anomaliesAll records ↔ 9/10 < v) ∧
       (0 < baselineOf records e →
          (mkPeak records r.timestamp e v).intensity = v / baselineOf records e) ∧
       (¬ 0 < baselineOf records e → (mkPeak records r.timestamp e v).intensity = 1)) := by
  intro records r e v hr he
  refine ⟨⟨?_, ?_⟩, ⟨?_, ?_⟩, ?_, ?_⟩
  · intro hmem
    rw [peaksAll, List.mem_flatMap] at hmem
    obtain ⟨r', _, hmem⟩ := hmem
    rw [List.mem_filterMap] at hmem
    obtain ⟨p, _, hp⟩ := hmem
    by_cases hc : baselineOf records p.1 * threshold_multiplier < p.2 ∧ 7/10 < p.2
    · rw [if_pos hc] at hp
      have hfields := Option.some.inj hp
      have he1 : p.1 = e := congrArg PeakEntry.emotion hfields
      have he2 : p.2 = v := congrArg PeakEntry.value hfields
      rw [he1, he2] at hc
      exact hc
    · rw [if_neg hc] at hp
      exact absurd hp (Option.noConfusion)
  · intro hc
    rw [peaksAll, List.mem_flatMap]
    exact ⟨r, hr, List.mem_filterMap.mpr ⟨(e, v), he, by rw [if_pos hc]⟩⟩
  · intro hmem
    rw [anomaliesAll, List.mem_flatMap] at hmem
    obtain ⟨r', _, hmem⟩ := hmem
    rw [List.mem_filterMap] at hmem
    obtain ⟨p, _, hp⟩ := hmem
    by_cases hc : (9 : ℚ)/10 < p.2
    · rw [if_pos hc] at hp
      have hfields := Option.some.inj hp
      have he2 : p.2 = v := congrArg AnomalyEntry.value hfields
      rw [he2] at hc
      exact hc
    · rw [if_neg hc] at hp
      exact absurd hp (Option.noConfusion)
  · intro hc
    rw [anomaliesAll, List.mem_flatMap]
    exact ⟨r, hr, List.mem_filterMap.mpr ⟨(e, v), he, by rw [if_pos hc]⟩⟩
  · intro hb
    simp [mkPeak, hb]
  · intro hb
    simp [mkPeak, hb]

/-- The spec's worked example for C4: four records whose `happy` values
average to the baseline 0.4, with one record at 0.9. -/
def peak_example_records : List ERecord :=
  [⟨0, [("happy", 9/10)]⟩, ⟨1, [("happy", 1/10)]⟩,
   ⟨2, [("happy", 3/10)]⟩, ⟨3, [("happy", 3/10)]⟩]

/-- Witness for C4: with baseline(happy) = 0.4 the value 0.9 is flagged
as a peak and not as an anomaly. -/
theorem peak_anomaly_flag_iff_example :
    baselineOf peak_example_records "happy" = 2/5 ∧
    mkPeak peak_example_records 0 "happy" (9/10) ∈ peaksAll peak_example_records ∧
    (⟨0, "happy", 9/10⟩ : AnomalyEntry) ∉ anomaliesAll peak_example_records := by
  have h := peak_anomaly_flag_iff peak_example_records ⟨0, [("happy", 9/10)]⟩ "happy" (9/10)
    (by simp [peak_example_records]) (by simp)
  have hvals : baselineValues peak_example_records "happy" = [9/10, 1/10, 3/10, 3/10] := by
    simp [baselineValues, peak_example_records, List.flatMap_cons, List.filterMap_cons]
  have hb : baselineOf peak_example_records "happy" = 2/5 := by
    simp only [baselineOf, hvals]
    rw [if_neg (by simp)]
    norm_num
  refine ⟨hb, h.1.mpr ⟨by rw [hb]; norm_num [threshold_multiplier], by norm_num⟩,
    fun hmem => ?_⟩
  have := h.2.1.mp hmem
  norm_num at this

/-- `lastN n l` is a suffix of `l`. -/
theorem lastN_suffix (n : Nat) (l : List α) : List.IsSuffix (lastN n l) l :=
  List.drop_suffix _ _

/-- `lastN n l` has at most `n` elements. -/
theorem lastN_length_le (n : Nat) (l : List α) : (lastN n l).length ≤ n := by
  simp only [lastN, List.length_drop]
  omega

/-- C5: the returned peak list is sorted by intensity descending and has
at most 20 entries, while the returned anomaly list is exactly the last
10 anomalies in source order (a suffix of the full anomaly list, never
re-sorted), hence has at most 10 entries. -/
theorem peaks_sorted_anomalies_recent :
    ∀ records : List ERecord,
      List.Pairwise (fun a b : PeakEntry => b.intensity ≤ a.intensity)
        (get_emotion_peaks records).1 ∧
      (get_emotion_peaks records).1.length ≤ 20 ∧
      (get_emotion_peaks records).2 = lastN 10 (anomaliesAll records) ∧
      List.IsSuffix (get_emotion_peaks records).2 (anomaliesAll records) ∧
      (get_emotion_peaks records).2.length ≤ 10 := by
  intro records
  by_cases h : records = []
  · subst h
    exact ⟨List.Pairwise.nil, by simp [get_emotion_peaks],
      by simp [get_emotion_peaks, anomaliesAll, lastN],
      by simp [get_emotion_peaks, anomaliesAll], by simp [get_emotion_peaks]⟩
  · have hsorted := @List.sorted_mergeSort PeakEntry
      (fun a b : PeakEntry => decide (b.intensity ≤ a.intensity))
      (fun a b c hab hbc =>
        decide_eq_true (le_trans (of_decide_eq_true hbc) (of_decide_eq_true hab)))
      (fun a b => by
        rcases le_total b.intensity a.intensity with hle | hle
        · simp [decide_eq_true hle]
        · simp [decide_eq_true hle])
      (peaksAll records)
    have hpair : List.Pairwise (fun a b : PeakEntry => b.intensity ≤ a.intensity)
        ((peaksAll records).mergeSort (fun a b => decide (b.intensity ≤ a.intensity))) :=
      hsorted.imp (fun hab => of_decide_eq_true hab)
    refine ⟨?_, ?_, ?_, ?_, ?_⟩
    · simp only [get_emotion_peaks, if_neg h]
      exact hpair.sublist (List.take_sublist _ _)
    · simp only [get_emotion_peaks, if_neg h]
      exact List.length_take_le _ _
    · simp [get_emotion_peaks, if_neg h]
    · simp only [get_emotion_peaks, if_neg h]
      exact lastN_suffix _ _
    · simp only [get_emotion_peaks, if_neg h]
      exact lastN_length_le _ _

/-- Three-way partition of a count: the `elif` ladder puts every element
in exactly one of the buckets `p`, `!p && q`, `!p && !q`. -/
theorem countP_three_partition (p q : α → Bool) (l : List α) :
    l.countP (fun a => !p a && q a) + l.countP (fun a => !p a && !q a) +
      l.countP p = l.length := by
  induction l with
  | nil => rfl
  | cons a l ih =>
    by_cases hp : p a <;> by_cases hq : q a <;>
      simp [List.countP_cons, hp, hq] <;> omega

/-- C7: every record's dominant emotion lands in exactly one of the three
stress buckets, the returned levels are the bucket percentages
`count / total * 100`, those percentages sum to 100, and an empty record
set yields the degenerate `(33.3, 33.3, 33.3)` split. -/
theorem stress_levels_partition :
    ∀ records : List ERecord,
      (records = [] → stress_levels records = (333/10, 333/10, 333/10)) ∧
      (records ≠ [] →
        stress_levels records =
          ((records.countP inLowBucket : ℚ) / records.length * 100,
           (records.countP inMediumBucket : ℚ) / records.length * 100,
           (records.countP inHighBucket : ℚ) / records.length * 100) ∧
        records.countP inLowBucket + records.countP inMediumBucket +
          records.countP inHighBucket = records.length ∧
        (stress_levels records).1 + (stress_levels records).2.1 +
          (stress_levels records).2.2 = 100) := by
  intro records
  constructor
  · intro h
    simp [stress_levels, h]
  · intro h
    have hpart : records.countP inLowBucket + records.countP inMediumBucket +
        records.countP inHighBucket = records.length := by
      have := countP_three_partition inHighBucket
        (fun r => positive_emotions.contains (dominantOf r.emotions).1) records
      unfold inLowBucket inMediumBucket
      simpa using this
    have hsl : stress_levels records =
        ((records.countP inLowBucket : ℚ) / records.length * 100,
         (records.countP inMediumBucket : ℚ) / records.length * 100,
         (records.countP inHighBucket : ℚ) / records.length * 100) := by
      simp [stress_levels, h]
    refine ⟨hsl, hpart, ?_⟩
    rw [hsl]
    have hlen : (records.length : ℚ) ≠ 0 := by
      have hne : records.length ≠ 0 := fun hz => h (List.length_eq_zero.mp hz)
      exact_mod_cast hne
    have hcast : (records.countP inLowBucket : ℚ) + records.countP inMediumBucket +
        records.countP inHighBucket = (records.length : ℚ) := by
      exact_mod_cast hpart
    field_simp
    linarith [hcast]

/-- Witness for C7: a single all-happy record gives percentages summing
to 100. -/
theorem stress_levels_partition_example :
    ([(⟨0, [("happy", 1)]⟩ : ERecord)] : List ERecord) ≠ [] ∧
    (stress_levels [⟨0, [("happy", 1)]⟩]).1 +
      (stress_levels [⟨0, [("happy", 1)]⟩]).2.1 +
      (stress_levels [⟨0, [("happy", 1)]⟩]).2.2 = 100 := by
  have h := (stress_levels_partition [⟨0, [("happy", 1)]⟩]).2 (by simp)
  exact ⟨by simp, h.2.2⟩

/-- C9: emotion-vector validation accepts exactly the dict inputs in
which every one of the seven canonical emotions is present with a numeric
value in `[0, 1]`. -/
theorem validate_emotion_data_iff :
    ∀ d : EmotionData,
      validate_emotion_data d = true ↔
        ∃ entries, d = .dict entries ∧
          ∀ e ∈ required_emotions,
            ∃ v : ℚ, entries.lookup e = some (some v) ∧ 0 ≤ v ∧ v ≤ 1 := by
  intro d
  cases d with
  | notDict => simp [validate_emotion_data]
  | dict entries =>
    simp only [validate_emotion_data, List.all_eq_true]
    constructor
    · intro h
      refine ⟨entries, rfl, fun e he => ?_⟩
      have hcase := h e he
      cases hl : entries.lookup e with
      | none => rw [hl] at hcase; exact absurd hcase (by simp)
      | some o =>
        cases o with
        | none => rw [hl] at hcase; exact absurd hcase (by simp)
        | some v =>
          rw [hl] at hcase
          exact ⟨v, rfl, of_decide_eq_true hcase⟩
    · rintro ⟨entries', heq, hall⟩
      have hinj : entries = entries' := by
        injection heq
      subst hinj
      intro e he
      obtain ⟨v, hl, h0, h1⟩ := hall e he
      rw [hl]
      exact decide_eq_true ⟨h0, h1⟩

end ERS
